import Mathlib

/-!
Shallow embedding of `nuclei_monitoring.py` (template discovery, merge and
cache persistence) and verification of the spec's claims about it.

Modelling conventions:
* Python `datetime` values are a time coordinate plus an optional tzinfo
  offset (`none` models a naive datetime).
* The parsed YAML of a rule file is reduced to the three fields the code
  reads (`id`, `info.severity`, `info.description`); the on-disk mirror is a
  map from paths to file contents (absent, unparsable, or a parsed document).
* Python exceptions are modelled with `Except String`.
* A persisted store (a file opened by path) is modelled by its content
  string; opening a file in mode `w` replaces the content.
All definitions are structural so that concrete instances evaluate.
-/

namespace NucleiMonitoring

/-- Model of a Python `datetime.datetime`: a time coordinate together with an
optional tzinfo offset. `tz = none` models a naive datetime; `tz = some o` an
aware one with fixed offset `o`. -/
structure Datetime where
  time : Int
  tz : Option Int
deriving DecidableEq

/-- Model of `dt.astimezone(timezone.utc)` (line 111): the result is an aware
datetime in UTC denoting the same instant. -/
def astimezone_utc (d : Datetime) : Datetime :=
  { time := d.time, tz := some 0 }

/-- Model of Python `a > b` on datetimes: comparing a naive and an aware
datetime raises `TypeError`; otherwise the instants are compared. -/
def pyDtGt (a b : Datetime) : Except String Bool :=
  match a.tz, b.tz with
  | some _, some _ => Except.ok (decide (b.time < a.time))
  | none, none => Except.ok (decide (b.time < a.time))
  | _, _ => Except.error "TypeError: cannot compare offset-naive and offset-aware datetimes"

/-- Decimal digit character for `d < 10` (codepoint `48 + d`). -/
def digitChar10 (d : Nat) : Char := Char.ofNat (48 + d)

/-- Reversed decimal digits of `n`, least significant first; `fuel` bounds the
recursion, and any `fuel ≥ n` computes all digits. -/
def natDigitsRev (fuel n : Nat) : List Char :=
  match fuel, n with
  | 0, _ => []
  | _ + 1, 0 => []
  | f + 1, m + 1 => digitChar10 ((m + 1) % 10) :: natDigitsRev f ((m + 1) / 10)

/-- Decimal digit characters of a natural number, most significant first. -/
def natChars (n : Nat) : List Char :=
  if n = 0 then [digitChar10 0] else (natDigitsRev n n).reverse

/-- Decimal rendering of an integer: an optional minus sign, then digits. -/
def intChars : Int → List Char
  | Int.ofNat n => natChars n
  | Int.negSucc n => '-' :: natChars (n + 1)

/-- Numeric value of a decimal digit character. -/
def charVal (c : Char) : Nat := c.toNat - 48

/-- Value of reversed decimal digits, least significant first. -/
def parseRevDigits : List Char → Nat
  | [] => 0
  | c :: cs => charVal c + 10 * parseRevDigits cs

/-- Value of decimal digits, most significant first. -/
def parseNatChars (l : List Char) : Nat := parseRevDigits l.reverse

/-- Value of a rendered integer (optional minus sign, then digits). -/
def parseIntChars (l : List Char) : Int :=
  match l with
  | c :: cs => if c = '-' then - Int.ofNat (parseNatChars cs) else Int.ofNat (parseNatChars l)
  | [] => 0

/-- Model of `datetime.isoformat` (line 49): renders the time coordinate and,
for an aware datetime, appends the rendered offset after a plus separator; a
naive datetime gets no offset suffix. The model keeps the decimal time
coordinate in place of the calendar notation. -/
def isoformat (d : Datetime) : String :=
  match d.tz with
  | none => String.mk (intChars d.time)
  | some o => String.mk (intChars d.time ++ '+' :: intChars o)

/-- Splits a character list at the first plus sign. -/
def splitAtPlus : List Char → List Char × Option (List Char)
  | [] => ([], none)
  | c :: cs =>
    if c = '+' then ([], some cs)
    else
      let r := splitAtPlus cs
      (c :: r.1, r.2)

/-- Model of `datetime.fromisoformat` (line 57): a present offset suffix
yields an aware datetime, its absence a naive one. -/
def datetime_fromisoformat (s : String) : Datetime :=
  match splitAtPlus s.data with
  | (t, none) => { time := parseIntChars t, tz := none }
  | (t, some o) => { time := parseIntChars t, tz := some (parseIntChars o) }

/-- The fields of a parsed rule file that `load_attributes` reads:
`data.get('id')`, `data.get('info', {}).get('severity')` and
`data.get('info', {}).get('description')` (lines 29 to 31). -/
structure YamlDoc where
  id : Option String
  severity : Option String
  description : Option String
deriving DecidableEq

/-- A file of the local mirror: it either parses into a document or fails to
parse. -/
inductive FileContent where
  | parsable (doc : YamlDoc)
  | unparsable
deriving DecidableEq

/-- The state of the on-disk mirror: file contents by path, `none` when no
file exists at the path. -/
abbrev Fs : Type := String → Option FileContent

/-- The record built by `NucleiTemplate.__init__`; field order follows the
attribute assignment order of lines 11 to 18. -/
structure NucleiTemplate where
  commit_date : Option Datetime
  filepath : String
  raw_url : Option String
  name : String
  category : String
  severity : String
  description : String
  status : Option String
deriving DecidableEq

/-- Model of `str.split('/')`. -/
def splitOnChar (sep : Char) : List Char → List (List Char)
  | [] => [[]]
  | c :: cs =>
    if c = sep then [] :: splitOnChar sep cs
    else
      match splitOnChar sep cs with
      | l :: ls => (c :: l) :: ls
      | [] => [[c]]

/-- `url.split('/')` as a list of strings. -/
def pySplitSlash (u : String) : List String :=
  (splitOnChar '/' u.data).map String.mk

/-- The body of `extract_category_from_url` after `parts = url.split('/')`
(lines 37 to 43): if `"main"` occurs among the parts, return the part after
its first occurrence when at least one part follows; else "Uncategorized". -/
def categoryFromParts (parts : List String) : String :=
  if "main" ∈ parts then
    if h : parts.indexOf "main" + 1 < parts.length then parts[parts.indexOf "main" + 1]
    else "Uncategorized"
  else "Uncategorized"

/-- `NucleiTemplate.extract_category_from_url` (lines 33 to 43). The outer
guard `if url:` is false for `None` and for the empty string. -/
def extract_category_from_url (url : Option String) : String :=
  match url with
  | none => "Uncategorized"
  | some u => if u ≠ "" then categoryFromParts (pySplitSlash u) else "Uncategorized"

/-- `NucleiTemplate.load_attributes` (lines 25 to 31): opens `filepath` and
parses it; raises when the file is absent (`FileNotFoundError`) or does not
parse (`YAMLError`); otherwise yields the parsed document, whose fields are
read with the defaults of lines 29 to 31. -/
def load_attributes (fs : Fs) (filepath : String) : Except String YamlDoc :=
  match fs filepath with
  | none => Except.error "FileNotFoundError"
  | some FileContent.unparsable => Except.error "YAMLError"
  | some (FileContent.parsable data) => Except.ok data

/-- `NucleiTemplate.__init__` (lines 10 to 19): stores the constructor
arguments, derives the category from the raw URL, then runs
`load_attributes`, which reads the file at `filepath` from the mirror. -/
def mkNucleiTemplate (fs : Fs) (filepath : String) (raw_url : Option String)
    (commit_date : Option Datetime) (status : Option String) :
    Except String NucleiTemplate :=
  match load_attributes fs filepath with
  | Except.error e => Except.error e
  | Except.ok data =>
    Except.ok
      { commit_date := commit_date
        filepath := filepath
        raw_url := raw_url
        name := data.id.getD "Unknown"
        category := extract_category_from_url raw_url
        severity := data.severity.getD "Unknown"
        description := data.description.getD "No description available."
        status := status }

/-- `NucleiTemplate.unique_id` (lines 21 to 23). -/
def NucleiTemplate.unique_id (t : NucleiTemplate) : String := t.name

/-- A commit as the scan consumes it: its `committed_datetime` and the file
paths of `commit.stats.files`. -/
structure Commit where
  committed_datetime : Datetime
  files : List String
deriving DecidableEq

/-- The repository handle as the scan consumes it: `repo.working_dir` and
`repo.iter_commits(paths=p)`, the full-history commit list touching `p`. -/
structure Repo where
  working_dir : String
  iter_commits_paths : String → List Commit

/-- `is_template_new` (lines 95 to 103): the file is new iff exactly one
commit in the repository history touches the path. -/
def is_template_new (repo : Repo) (file_path : String) : Bool :=
  (repo.iter_commits_paths file_path).length == 1

/-- Model of `str.endswith(suffix)`. -/
def pyEndsWith (s suffix : String) : Bool :=
  List.isSuffixOf suffix.data s.data

/-- Model of `os.path.join(a, b)` for a relative `b`. -/
def os_path_join (a b : String) : String := a ++ "/" ++ b

/-- The raw URL built at line 115. -/
def raw_url_for (file_path : String) : String :=
  "https://raw.githubusercontent.com/projectdiscovery/nuclei-templates/main/" ++ file_path

/-- The `new_templates` dict, keyed by `template.name`, preserving Python's
dict insertion order. -/
abbrev PyDict : Type := List (String × NucleiTemplate)

/-- `key in dict` / `dict[key]` read access. -/
def dictGet (m : PyDict) (k : String) : Option NucleiTemplate :=
  match m with
  | [] => none
  | kv :: rest => if kv.1 = k then some kv.2 else dictGet rest k

/-- `dict[key] = value`: replaces in place when the key exists, appends
otherwise. -/
def dictSet (m : PyDict) (k : String) (v : NucleiTemplate) : PyDict :=
  match m with
  | [] => [(k, v)]
  | kv :: rest => if kv.1 = k then (k, v) :: rest else kv :: dictSet rest k v

/-- `list(dict.values())` in insertion order. -/
def dictValues (m : PyDict) : List NucleiTemplate := m.map (fun kv => kv.2)

/-- Line 124: the status written onto a template just before insertion. -/
def assignStatus (repo : Repo) (file_path : String) (t : NucleiTemplate) : NucleiTemplate :=
  { t with status := some (if is_template_new repo file_path then "new" else "modified") }

/-- Lines 122 to 125: `if template.name not in new_templates or commit_date >
new_templates[template.name].commit_date:` followed by status assignment and
insertion. Python short-circuits, so the comparison only runs when the key is
present; comparing against a stored `None` date, or mixing naive and aware
datetimes, raises. -/
def mergeTemplate (repo : Repo) (file_path : String) (commit_date : Datetime)
    (template : NucleiTemplate) (new_templates : PyDict) : Except String PyDict :=
  match dictGet new_templates template.name with
  | none =>
    Except.ok (dictSet new_templates template.name (assignStatus repo file_path template))
  | some existing =>
    match existing.commit_date with
    | none => Except.error "TypeError: gt not supported between datetime and NoneType"
    | some d =>
      match pyDtGt commit_date d with
      | Except.error e => Except.error e
      | Except.ok true =>
        Except.ok (dictSet new_templates template.name (assignStatus repo file_path template))
      | Except.ok false => Except.ok new_templates

/-- The inner loop of `find_templates_in_commits` over one commit's changed
files (lines 113 to 125). The surrounding `try` sits outside this loop
(lines 112 and 126), so the first raising file ends the commit's processing
with the dict as accumulated so far. -/
def processCommitFiles (fs : Fs) (repo : Repo) (commit_date : Datetime) :
    PyDict → List String → PyDict
  | m, [] => m
  | m, file_path :: rest =>
    if pyEndsWith file_path ".yaml" = true then
      match mkNucleiTemplate fs (os_path_join repo.working_dir file_path)
          (some (raw_url_for file_path)) (some commit_date) none with
      | Except.error _ => m
      | Except.ok template =>
        match mergeTemplate repo file_path commit_date template m with
        | Except.error _ => m
        | Except.ok m2 => processCommitFiles fs repo commit_date m2 rest
    else
      processCommitFiles fs repo commit_date m rest

/-- The outer loop of `find_templates_in_commits` (lines 110 to 127). -/
def scanFold (fs : Fs) (repo : Repo) (m : PyDict) (commits : List Commit) : PyDict :=
  commits.foldl
    (fun acc c => processCommitFiles fs repo (astimezone_utc c.committed_datetime) acc c.files)
    m

/-- `find_templates_in_commits` (lines 106 to 129). -/
def find_templates_in_commits (fs : Fs) (repo : Repo) (commits : List Commit) :
    List NucleiTemplate :=
  dictValues (scanFold fs repo [] commits)

/-- A JSON scalar as it occurs in the serialized records: every value of
`NucleiTemplate.__dict__` is a string or `None` after the `commit_date`
conversion. -/
inductive JVal where
  | jnull
  | jstr (s : String)
deriving DecidableEq

/-- JSON rendering of a scalar; the serialized field values contain no
characters that `json.dumps` would escape. -/
def jvalRender : JVal → String
  | JVal.jnull => "null"
  | JVal.jstr s => "\"" ++ s ++ "\""

/-- The dict serialized by `to_json` (lines 48 and 49): a copy of `__dict__`
in attribute insertion order, with `commit_date` replaced by its isoformat
string, or `None` kept as `None`. -/
def obj_dict (t : NucleiTemplate) : List (String × JVal) :=
  [("commit_date", match t.commit_date with
      | some d => JVal.jstr (isoformat d)
      | none => JVal.jnull),
   ("filepath", JVal.jstr t.filepath),
   ("raw_url", match t.raw_url with
      | some u => JVal.jstr u
      | none => JVal.jnull),
   ("name", JVal.jstr t.name),
   ("category", JVal.jstr t.category),
   ("severity", JVal.jstr t.severity),
   ("description", JVal.jstr t.description),
   ("status", match t.status with
      | some s => JVal.jstr s
      | none => JVal.jnull)]

/-- Concatenation of a list of strings. -/
def strConcat : List String → String
  | [] => ""
  | s :: ss => s ++ strConcat ss

/-- Interleaves a separator between strings. -/
def strInterc (sep : String) : List String → String
  | [] => ""
  | [s] => s
  | s :: rest => s ++ sep ++ strInterc sep rest

/-- `json.dumps(obj, indent=4)` for a flat dict of scalars: a multi-line
rendering with every member on its own four-space-indented line. -/
def json_dumps_indent4 (kvs : List (String × JVal)) : String :=
  match kvs with
  | [] => "\x7b\x7d"
  | _ :: _ =>
    "\x7b\n" ++
      (strInterc ",\n" (kvs.map (fun kv => "    \"" ++ kv.1 ++ "\": " ++ jvalRender kv.2)) ++
        "\n\x7d")

/-- `NucleiTemplate.to_json` (lines 45 to 50). -/
def to_json (t : NucleiTemplate) : String :=
  json_dumps_indent4 (obj_dict t)

/-- `save_templates_to_json` (lines 131 to 134): the content written to the
store, one `to_json` rendering plus a newline per record. -/
def save_templates_to_json (templates : List NucleiTemplate) : String :=
  strConcat (templates.map (fun t => to_json t ++ "\n"))

/-- The effect of `save_templates_to_json` on the store at `json_file_path`:
the file is opened in mode `w`, which truncates, so the resulting content
never depends on the previous content. -/
def runSave (_oldContent : String) (templates : List NucleiTemplate) : String :=
  save_templates_to_json templates

def lbraceChar : Char := '\x7b'

def rbraceChar : Char := '\x7d'

/-- Whitespace as `json` and `str.strip` treat it. -/
def pyIsSpace (c : Char) : Bool :=
  c = ' ' || c = '\n' || c = '\t' || c = '\r'

/-- Model of `str.strip()`. -/
def pyStrip (s : String) : String :=
  String.mk (((s.data.dropWhile pyIsSpace).reverse.dropWhile pyIsSpace).reverse)

/-- Skips JSON whitespace. -/
def skipWs : List Char → List Char
  | [] => []
  | c :: cs => if pyIsSpace c then skipWs cs else c :: cs

/-- Parses the remainder of a JSON string after the opening quote; no escape
sequences occur in the serialized records. -/
def parseStrChars : List Char → Option (List Char × List Char)
  | [] => none
  | c :: cs =>
    if c = '"' then some ([], cs)
    else
      match parseStrChars cs with
      | some (s, r) => some (c :: s, r)
      | none => none

/-- Parses one JSON scalar value. -/
def parseJVal : List Char → Option (JVal × List Char)
  | '"' :: cs =>
    match parseStrChars cs with
    | some (s, r) => some (JVal.jstr (String.mk s), r)
    | none => none
  | 'n' :: 'u' :: 'l' :: 'l' :: cs => some (JVal.jnull, cs)
  | _ => none

/-- Parses the members of a JSON object after the opening brace, up to and
including the closing brace. -/
def parseMembers : Nat → List Char → Option (List (String × JVal) × List Char)
  | 0, _ => none
  | fuel + 1, cs =>
    match skipWs cs with
    | '"' :: cs1 =>
      match parseStrChars cs1 with
      | none => none
      | some (key, cs2) =>
        match skipWs cs2 with
        | ':' :: cs3 =>
          match parseJVal (skipWs cs3) with
          | none => none
          | some (v, cs4) =>
            match skipWs cs4 with
            | ',' :: cs5 =>
              match parseMembers fuel cs5 with
              | some (rest, cs6) => some ((String.mk key, v) :: rest, cs6)
              | none => none
            | c :: cs5 =>
              if c = rbraceChar then some ([(String.mk key, v)], cs5) else none
            | [] => none
        | _ => none
    | _ => none

/-- Model of `json.loads` on one line of the cache file: parses a complete
flat JSON object and rejects anything else, in particular a lone opening
brace or any other fragment of a multi-line rendering. -/
def json_loads (s : String) : Except String (List (String × JVal)) :=
  match skipWs s.data with
  | c :: cs =>
    if c = lbraceChar then
      match skipWs cs with
      | c2 :: cs2 =>
        if c2 = rbraceChar then
          if (skipWs cs2).isEmpty then Except.ok [] else Except.error "Extra data"
        else
          match parseMembers (s.length + 1) (c2 :: cs2) with
          | some (kvs, rest) =>
            if (skipWs rest).isEmpty then Except.ok kvs else Except.error "Extra data"
          | none => Except.error "json.decoder.JSONDecodeError: Expecting value"
      | [] => Except.error "json.decoder.JSONDecodeError: Expecting value"
    else Except.error "json.decoder.JSONDecodeError: Expecting value"
  | [] => Except.error "json.decoder.JSONDecodeError: Expecting value"

/-- Python dict lookup on parsed JSON members (later duplicates win). -/
def jlookup (kvs : List (String × JVal)) (k : String) : Option JVal :=
  ((kvs.filter (fun kv => kv.1 = k)).map (fun kv => kv.2)).getLast?

/-- Reads a JSON scalar as the Python value passed for a keyword argument. -/
def jvalToOptStr : JVal → Option String
  | JVal.jnull => none
  | JVal.jstr s => some s

/-- `NucleiTemplate.from_json` (lines 52 to 58): `json.loads` the line,
convert `commit_date` back when truthy, then `NucleiTemplate(**obj_dict)`.
The constructor accepts only the keyword arguments `filepath`, `raw_url`,
`commit_date` and `status`; any other key of the parsed dict raises
`TypeError`, and reconstruction reruns `__init__`, which reads `filepath`
from the mirror again. -/
def from_json (fs : Fs) (json_str : String) : Except String NucleiTemplate :=
  match json_loads json_str with
  | Except.error e => Except.error e
  | Except.ok obj =>
    match jlookup obj "commit_date" with
    | none => Except.error "KeyError: commit_date"
    | some cdv =>
      let commit_date : Option Datetime :=
        match cdv with
        | JVal.jstr s => if s ≠ "" then some (datetime_fromisoformat s) else none
        | JVal.jnull => none
      if obj.all (fun kv =>
          decide (kv.1 = "filepath" ∨ kv.1 = "raw_url" ∨ kv.1 = "commit_date" ∨ kv.1 = "status")) then
        match jlookup obj "filepath" with
        | some (JVal.jstr fp) =>
          mkNucleiTemplate fs fp ((jlookup obj "raw_url").bind jvalToOptStr) commit_date
            ((jlookup obj "status").bind jvalToOptStr)
        | _ => Except.error "TypeError: init missing required argument filepath"
      else Except.error "TypeError: init got an unexpected keyword argument"

/-- The lines Python's file iteration yields from a content string, after the
per-line `strip` has not yet been applied: every chunk between newlines, with
no empty final chunk when the content ends in a newline. -/
def pyLines (s : String) : List String :=
  let parts := splitOnChar '\n' s.data
  (if parts.getLast? = some [] then parts.dropLast else parts).map String.mk

/-- The loop of `load_templates_from_json` (lines 140 and 141): builds the
list front to back; a raising line aborts the whole load. -/
def loadLines (fs : Fs) : List String → Except String (List NucleiTemplate)
  | [] => Except.ok []
  | line :: rest =>
    match from_json fs (pyStrip line) with
    | Except.error e => Except.error e
    | Except.ok t =>
      match loadLines fs rest with
      | Except.error e => Except.error e
      | Except.ok ts => Except.ok (t :: ts)

/-- `load_templates_from_json` (lines 137 to 142), on the content of the
store. -/
def load_templates_from_json (fs : Fs) (content : String) : Except String (List NucleiTemplate) :=
  loadLines fs (pyLines content)

/-- Concrete fixtures used by witness and counterexample theorems. -/
def repoW : Repo := { working_dir := "w", iter_commits_paths := fun _ => [] }

def tmplA : NucleiTemplate :=
  { commit_date := some { time := 1, tz := some 0 }, filepath := "w/x.yaml", raw_url := none,
    name := "x", category := "Uncategorized", severity := "low", description := "d",
    status := none }

def tmplB : NucleiTemplate :=
  { tmplA with commit_date := some { time := 2, tz := some 0 }, filepath := "w/y.yaml" }

def repoOne : Repo :=
  { working_dir := "w",
    iter_commits_paths := fun p =>
      if p = "one.yaml" then [{ committed_datetime := { time := 1, tz := some 0 }, files := ["one.yaml"] }]
      else [{ committed_datetime := { time := 1, tz := some 0 }, files := ["a"] },
            { committed_datetime := { time := 2, tz := some 0 }, files := ["a"] }] }

def fsNoId : Fs := fun p =>
  if p = "cves/foo.yaml" then
    some (FileContent.parsable { id := none, severity := some "high", description := some "x" })
  else none

def fsWithId : Fs := fun p =>
  if p = "w/http/a.yaml" then
    some (FileContent.parsable { id := some "ida", severity := some "low", description := some "da" })
  else none

def fsBad : Fs := fun p =>
  if p = "w/a.yaml" then some FileContent.unparsable
  else if p = "w/b.yaml" then
    some (FileContent.parsable { id := some "idb", severity := some "low", description := some "db" })
  else none

def fsDup : Fs := fun p =>
  if p = "w/x/a.yaml" then
    some (FileContent.parsable { id := none, severity := some "s1", description := some "d1" })
  else if p = "w/y/b.yaml" then
    some (FileContent.parsable { id := none, severity := some "s2", description := some "d2" })
  else none

/-- The registry invariant of the scan: every stored record carries an aware
UTC commit timestamp. -/
def DatesAwareUtc (m : PyDict) : Prop :=
  ∀ kv ∈ m, ∃ d, kv.2.commit_date = some d ∧ d.tz = some 0

theorem charVal_digitChar10 (d : Nat) (h : d < 10) : charVal (digitChar10 d) = d := by
  interval_cases d <;> decide

theorem digitChar10_ne_minus (d : Nat) (h : d < 10) : digitChar10 d ≠ '-' := by
  interval_cases d <;> decide

theorem digitChar10_ne_plus (d : Nat) (h : d < 10) : digitChar10 d ≠ '+' := by
  interval_cases d <;> decide

theorem parseRevDigits_natDigitsRev :
    ∀ fuel n, n ≤ fuel → parseRevDigits (natDigitsRev fuel n) = n := by
  intro fuel
  induction fuel with
  | zero =>
    intro n h
    have hn : n = 0 := by omega
    subst hn
    rfl
  | succ f ih =>
    intro n h
    match n with
    | 0 => rfl
    | m + 1 =>
      rw [natDigitsRev, parseRevDigits]
      have hdiv : (m + 1) / 10 ≤ f := by
        have := Nat.div_lt_self (Nat.succ_pos m) (by norm_num : 1 < 10)
        omega
      rw [ih _ hdiv, charVal_digitChar10 _ (Nat.mod_lt _ (by norm_num))]
      exact Nat.mod_add_div (m + 1) 10

theorem parseNatChars_natChars (n : Nat) : parseNatChars (natChars n) = n := by
  by_cases h : n = 0
  · subst h; rfl
  · simp only [natChars, if_neg h, parseNatChars, List.reverse_reverse]
    exact parseRevDigits_natDigitsRev n n le_rfl

theorem mem_natDigitsRev :
    ∀ fuel n c, c ∈ natDigitsRev fuel n → ∃ d, d < 10 ∧ c = digitChar10 d := by
  intro fuel
  induction fuel with
  | zero => intro n c h; simp [natDigitsRev] at h
  | succ f ih =>
    intro n c h
    match n with
    | 0 => simp [natDigitsRev] at h
    | m + 1 =>
      rw [natDigitsRev] at h
      rcases List.mem_cons.mp h with h1 | h2
      · exact ⟨(m + 1) % 10, Nat.mod_lt _ (by norm_num), h1⟩
      · exact ih _ _ h2

theorem mem_natChars (n : Nat) (c : Char) (h : c ∈ natChars n) :
    ∃ d, d < 10 ∧ c = digitChar10 d := by
  by_cases h0 : n = 0
  · subst h0
    rw [show natChars 0 = [digitChar10 0] from rfl] at h
    exact ⟨0, by norm_num, List.mem_singleton.mp h⟩
  · simp only [natChars, if_neg h0, List.mem_reverse] at h
    exact mem_natDigitsRev n n c h

theorem natChars_ne_nil (n : Nat) : natChars n ≠ [] := by
  rcases n with _ | m
  · simp [natChars]
  · rw [natChars, if_neg (Nat.succ_ne_zero m), natDigitsRev]
    simp

theorem plus_not_mem_natChars (n : Nat) : '+' ∉ natChars n := by
  intro h
  obtain ⟨d, hd, he⟩ := mem_natChars n '+' h
  exact digitChar10_ne_plus d hd he.symm

theorem plus_not_mem_intChars (i : Int) : '+' ∉ intChars i := by
  cases i with
  | ofNat n => exact plus_not_mem_natChars n
  | negSucc n =>
    intro h
    rcases List.mem_cons.mp h with h1 | h2
    · exact absurd h1 (by decide)
    · exact plus_not_mem_natChars (n + 1) h2

theorem parseIntChars_natChars (n : Nat) : parseIntChars (natChars n) = Int.ofNat n := by
  obtain ⟨c, cs, hcons⟩ : ∃ c cs, natChars n = c :: cs := by
    cases h : natChars n with
    | nil => exact absurd h (natChars_ne_nil n)
    | cons c cs => exact ⟨c, cs, rfl⟩
  have hc : c ∈ natChars n := by rw [hcons]; exact List.mem_cons_self c cs
  obtain ⟨d, hd, he⟩ := mem_natChars n c hc
  rw [hcons]
  simp only [parseIntChars]
  rw [if_neg (he ▸ digitChar10_ne_minus d hd), ← hcons, parseNatChars_natChars]

theorem parseIntChars_intChars (i : Int) : parseIntChars (intChars i) = i := by
  cases i with
  | ofNat n =>
    show parseIntChars (natChars n) = Int.ofNat n
    exact parseIntChars_natChars n
  | negSucc n =>
    show parseIntChars ('-' :: natChars (n + 1)) = Int.negSucc n
    simp only [parseIntChars, if_pos rfl, parseNatChars]
    rw [show ('-' :: natChars (n + 1)) = '-' :: natChars (n + 1) from rfl]
    have : parseNatChars (natChars (n + 1)) = n + 1 := parseNatChars_natChars (n + 1)
    rw [parseNatChars] at this
    rw [this]
    rfl

theorem splitAtPlus_of_not_mem (l : List Char) (h : '+' ∉ l) : splitAtPlus l = (l, none) := by
  induction l with
  | nil => rfl
  | cons c cs ih =>
    have hc : c ≠ '+' := fun e => h (e ▸ List.mem_cons_self c cs)
    have hcs : '+' ∉ cs := fun m => h (List.mem_cons_of_mem _ m)
    simp [splitAtPlus, hc, ih hcs]

theorem splitAtPlus_append (l r : List Char) (h : '+' ∉ l) :
    splitAtPlus (l ++ '+' :: r) = (l, some r) := by
  induction l with
  | nil => simp [splitAtPlus]
  | cons c cs ih =>
    have hc : c ≠ '+' := fun e => h (e ▸ List.mem_cons_self c cs)
    have hcs : '+' ∉ cs := fun m => h (List.mem_cons_of_mem _ m)
    simp [splitAtPlus, hc, ih hcs]

theorem datetime_fromisoformat_isoformat (d : Datetime) :
    datetime_fromisoformat (isoformat d) = d := by
  obtain ⟨t, tz⟩ := d
  cases tz with
  | none =>
    simp only [isoformat, datetime_fromisoformat]
    rw [splitAtPlus_of_not_mem _ (plus_not_mem_intChars t)]
    simp [parseIntChars_intChars]
  | some o =>
    simp only [isoformat, datetime_fromisoformat]
    rw [splitAtPlus_append _ _ (plus_not_mem_intChars t)]
    simp [parseIntChars_intChars]


theorem mem_dictSet (m : PyDict) (k : String) (v : NucleiTemplate) :
    ∀ kv ∈ dictSet m k v, kv = (k, v) ∨ kv ∈ m := by
  induction m with
  | nil =>
    intro kv h
    rw [dictSet] at h
    exact Or.inl (List.mem_singleton.mp h)
  | cons p rest ih =>
    intro kv h
    rw [dictSet] at h
    by_cases hp : p.1 = k
    · rw [if_pos hp] at h
      rcases List.mem_cons.mp h with h1 | h2
      · exact Or.inl h1
      · exact Or.inr (List.mem_cons_of_mem _ h2)
    · rw [if_neg hp] at h
      rcases List.mem_cons.mp h with h1 | h2
      · exact Or.inr (h1 ▸ List.mem_cons_self p rest)
      · rcases ih kv h2 with h3 | h4
        · exact Or.inl h3
        · exact Or.inr (List.mem_cons_of_mem _ h4)

theorem assignStatus_commit_date (repo : Repo) (fp : String) (t : NucleiTemplate) :
    (assignStatus repo fp t).commit_date = t.commit_date := rfl

theorem mergeTemplate_not_mem (repo : Repo) (fp : String) (cd : Datetime)
    (t : NucleiTemplate) (m : PyDict) (h : dictGet m t.name = none) :
    mergeTemplate repo fp cd t m =
      Except.ok (dictSet m t.name (assignStatus repo fp t)) := by
  simp only [mergeTemplate, h]

theorem mergeTemplate_newer (repo : Repo) (fp : String) (cd : Datetime)
    (t ex : NucleiTemplate) (m : PyDict) (d : Datetime)
    (h : dictGet m t.name = some ex) (he : ex.commit_date = some d)
    (hgt : pyDtGt cd d = Except.ok true) :
    mergeTemplate repo fp cd t m =
      Except.ok (dictSet m t.name (assignStatus repo fp t)) := by
  simp only [mergeTemplate, h, he, hgt]

theorem mergeTemplate_stale (repo : Repo) (fp : String) (cd : Datetime)
    (t ex : NucleiTemplate) (m : PyDict) (d : Datetime)
    (h : dictGet m t.name = some ex) (he : ex.commit_date = some d)
    (hgt : pyDtGt cd d = Except.ok false) :
    mergeTemplate repo fp cd t m = Except.ok m := by
  simp only [mergeTemplate, h, he, hgt]

theorem mergeTemplate_ok (repo : Repo) (fp : String) (cd : Datetime) (t : NucleiTemplate)
    (m m2 : PyDict) (h : mergeTemplate repo fp cd t m = Except.ok m2) :
    m2 = m ∨ m2 = dictSet m t.name (assignStatus repo fp t) := by
  unfold mergeTemplate at h
  rcases hd : dictGet m t.name with _ | ex
  · simp only [hd] at h
    exact Or.inr (Except.ok.inj h).symm
  · simp only [hd] at h
    rcases he : ex.commit_date with _ | d
    · simp only [he] at h
      exact Except.noConfusion h
    · simp only [he] at h
      rcases hb : pyDtGt cd d with e | b
      · simp only [hb] at h
        exact Except.noConfusion h
      · cases b
        · simp only [hb] at h
          exact Or.inl (Except.ok.inj h).symm
        · simp only [hb] at h
          exact Or.inr (Except.ok.inj h).symm

theorem processCommitFiles_cons_mk_err (fs : Fs) (repo : Repo) (cd : Datetime)
    (m : PyDict) (fp : String) (rest : List String) (e : String)
    (hy : pyEndsWith fp ".yaml" = true)
    (h : mkNucleiTemplate fs (os_path_join repo.working_dir fp)
        (some (raw_url_for fp)) (some cd) none = Except.error e) :
    processCommitFiles fs repo cd m (fp :: rest) = m := by
  simp only [processCommitFiles, if_pos hy, h]

theorem processCommitFiles_cons_merge_err (fs : Fs) (repo : Repo) (cd : Datetime)
    (m : PyDict) (fp : String) (rest : List String) (t : NucleiTemplate) (e : String)
    (hy : pyEndsWith fp ".yaml" = true)
    (hmk : mkNucleiTemplate fs (os_path_join repo.working_dir fp)
        (some (raw_url_for fp)) (some cd) none = Except.ok t)
    (hmg : mergeTemplate repo fp cd t m = Except.error e) :
    processCommitFiles fs repo cd m (fp :: rest) = m := by
  simp only [processCommitFiles, if_pos hy, hmk, hmg]

theorem processCommitFiles_cons_merge_ok (fs : Fs) (repo : Repo) (cd : Datetime)
    (m m2 : PyDict) (fp : String) (rest : List String) (t : NucleiTemplate)
    (hy : pyEndsWith fp ".yaml" = true)
    (hmk : mkNucleiTemplate fs (os_path_join repo.working_dir fp)
        (some (raw_url_for fp)) (some cd) none = Except.ok t)
    (hmg : mergeTemplate repo fp cd t m = Except.ok m2) :
    processCommitFiles fs repo cd m (fp :: rest) = processCommitFiles fs repo cd m2 rest := by
  simp only [processCommitFiles, if_pos hy, hmk, hmg]

theorem processCommitFiles_cons_not_yaml (fs : Fs) (repo : Repo) (cd : Datetime)
    (m : PyDict) (fp : String) (rest : List String)
    (hy : ¬ pyEndsWith fp ".yaml" = true) :
    processCommitFiles fs repo cd m (fp :: rest) = processCommitFiles fs repo cd m rest := by
  simp only [processCommitFiles, if_neg hy]

theorem mkNucleiTemplate_ok_commit_date (fs : Fs) (fp : String) (url : Option String)
    (cd : Option Datetime) (st : Option String) (t : NucleiTemplate)
    (h : mkNucleiTemplate fs fp url cd st = Except.ok t) : t.commit_date = cd := by
  unfold mkNucleiTemplate at h
  rcases hl : load_attributes fs fp with e | doc
  · rw [hl] at h; exact absurd h (by simp)
  · rw [hl] at h
    rw [← Except.ok.inj h]

theorem processCommitFiles_aware (fs : Fs) (repo : Repo) (cd : Datetime)
    (hcd : cd.tz = some 0) :
    ∀ (files : List String) (m : PyDict), DatesAwareUtc m →
      DatesAwareUtc (processCommitFiles fs repo cd m files) := by
  intro files
  induction files with
  | nil => intro m hm; exact hm
  | cons fp rest ih =>
    intro m hm
    by_cases hy : pyEndsWith fp ".yaml" = true
    · rcases hmk : mkNucleiTemplate fs (os_path_join repo.working_dir fp)
          (some (raw_url_for fp)) (some cd) none with e | t
      · rw [processCommitFiles_cons_mk_err fs repo cd m fp rest e hy hmk]
        exact hm
      · rcases hmg : mergeTemplate repo fp cd t m with e | m2
        · rw [processCommitFiles_cons_merge_err fs repo cd m fp rest t e hy hmk hmg]
          exact hm
        · rw [processCommitFiles_cons_merge_ok fs repo cd m m2 fp rest t hy hmk hmg]
          apply ih
          rcases mergeTemplate_ok repo fp cd t m m2 hmg with h2 | h2
          · exact h2 ▸ hm
          · subst h2
            intro kv hkv
            rcases mem_dictSet m t.name (assignStatus repo fp t) kv hkv with h3 | h3
            · refine ⟨cd, ?_, hcd⟩
              rw [h3]
              show (assignStatus repo fp t).commit_date = some cd
              rw [assignStatus_commit_date]
              exact mkNucleiTemplate_ok_commit_date fs _ _ _ _ t hmk
            · exact hm kv h3
    · rw [processCommitFiles_cons_not_yaml fs repo cd m fp rest hy]
      exact ih m hm

theorem scanFold_aware (fs : Fs) (repo : Repo) :
    ∀ (commits : List Commit) (m : PyDict), DatesAwareUtc m →
      DatesAwareUtc (scanFold fs repo m commits) := by
  intro commits
  induction commits with
  | nil => intro m hm; exact hm
  | cons c cs ih =>
    intro m hm
    rw [scanFold, List.foldl_cons]
    exact ih _ (processCommitFiles_aware fs repo _ rfl c.files m hm)

/-- C10: every record produced by a scan carries a timezone-aware UTC commit
timestamp (tz offset 0), attached via `astimezone(timezone.utc)` before any
merge comparison; serializing an aware timestamp and deserializing it
reproduces it, awareness included; and the comparison of two aware UTC
timestamps never raises the naive-aware `TypeError`. -/
theorem scan_timestamps_aware_utc (fs : Fs) (repo : Repo) (commits : List Commit) :
    (∀ t ∈ find_templates_in_commits fs repo commits,
      ∃ d, t.commit_date = some d ∧ d.tz = some 0)
    ∧ (∀ d : Datetime, datetime_fromisoformat (isoformat d) = d)
    ∧ (∀ a b : Datetime, a.tz = some 0 → b.tz = some 0 →
        pyDtGt a b = Except.ok (decide (b.time < a.time))) := by
  refine ⟨?_, fun d => datetime_fromisoformat_isoformat d, fun a b ha hb => ?_⟩
  · intro t ht
    have h := scanFold_aware fs repo commits [] (by intro kv hkv; cases hkv)
    unfold find_templates_in_commits dictValues at ht
    rcases List.mem_map.mp ht with ⟨kv, hkv, he⟩
    obtain ⟨d, hd, hz⟩ := h kv hkv
    exact ⟨d, he ▸ hd, hz⟩
  · rw [pyDtGt, ha, hb]

theorem scan_timestamps_aware_utc_witness :
    pyDtGt { time := 5, tz := some 0 } { time := 3, tz := some 0 } = Except.ok true := by
  have h := (scan_timestamps_aware_utc (fun _ => none)
      { working_dir := "w", iter_commits_paths := fun _ => [] } []).2.2
      { time := 5, tz := some 0 } { time := 3, tz := some 0 } rfl rfl
  simpa using h

/-- C1: the merge of lines 122 to 125 is most-recent-wins with a strict
comparison: two records sharing an identifier, merged from empty in either
order, leave exactly the strictly later one (with its status assigned); a new
record whose timestamp is equal to or older than the stored one leaves the
registry unchanged. -/
theorem merge_most_recent_wins (repo : Repo) (fpa fpb : String) (a b : NucleiTemplate)
    (ta tb : Datetime) (hname : a.name = b.name)
    (ha : a.commit_date = some ta) (hb : b.commit_date = some tb)
    (hza : ta.tz = some 0) (hzb : tb.tz = some 0) :
    (ta.time < tb.time →
      (mergeTemplate repo fpa ta a []).bind (mergeTemplate repo fpb tb b) =
          Except.ok [(b.name, assignStatus repo fpb b)]
        ∧ (mergeTemplate repo fpb tb b []).bind (mergeTemplate repo fpa ta a) =
          Except.ok [(b.name, assignStatus repo fpb b)])
    ∧ (tb.time ≤ ta.time →
      mergeTemplate repo fpb tb b [(a.name, assignStatus repo fpa a)] =
        Except.ok [(a.name, assignStatus repo fpa a)]) := by
  have hget1 : dictGet [(a.name, assignStatus repo fpa a)] b.name =
      some (assignStatus repo fpa a) := by
    rw [dictGet, if_pos hname]
  have hgetb : dictGet [(b.name, assignStatus repo fpb b)] a.name =
      some (assignStatus repo fpb b) := by
    rw [dictGet, if_pos hname.symm]
  have hcda : (assignStatus repo fpa a).commit_date = some ta := by
    rw [assignStatus_commit_date, ha]
  have hcdb : (assignStatus repo fpb b).commit_date = some tb := by
    rw [assignStatus_commit_date, hb]
  constructor
  · intro hlt
    have hgtb : pyDtGt tb ta = Except.ok true := by
      simp only [pyDtGt, hzb, hza]
      rw [decide_eq_true hlt]
    have hgta : pyDtGt ta tb = Except.ok false := by
      simp only [pyDtGt, hza, hzb]
      rw [decide_eq_false (not_lt.mpr (le_of_lt hlt))]
    constructor
    · rw [show mergeTemplate repo fpa ta a [] =
          Except.ok [(a.name, assignStatus repo fpa a)] from rfl]
      show mergeTemplate repo fpb tb b [(a.name, assignStatus repo fpa a)] = _
      rw [mergeTemplate_newer repo fpb tb b (assignStatus repo fpa a) _ ta hget1 hcda hgtb]
      simp [dictSet, hname]
    · rw [show mergeTemplate repo fpb tb b [] =
          Except.ok [(b.name, assignStatus repo fpb b)] from rfl]
      show mergeTemplate repo fpa ta a [(b.name, assignStatus repo fpb b)] = _
      rw [mergeTemplate_stale repo fpa ta a (assignStatus repo fpb b) _ tb hgetb hcdb hgta]
  · intro hle
    have hgtb : pyDtGt tb ta = Except.ok false := by
      simp only [pyDtGt, hzb, hza]
      rw [decide_eq_false (not_lt.mpr hle)]
    rw [mergeTemplate_stale repo fpb tb b (assignStatus repo fpa a) _ ta hget1 hcda hgtb]

theorem merge_most_recent_wins_witness :
    (mergeTemplate repoW "x.yaml" { time := 1, tz := some 0 } tmplA []).bind
        (mergeTemplate repoW "y.yaml" { time := 2, tz := some 0 } tmplB) =
      Except.ok [("x", assignStatus repoW "y.yaml" tmplB)] := by
  have h := ((merge_most_recent_wins repoW "x.yaml" "y.yaml" tmplA tmplB
      { time := 1, tz := some 0 } { time := 2, tz := some 0 }
      rfl rfl rfl rfl rfl).1 (by decide)).1
  exact h

/-- C2: the status assigned at line 124 is "new" precisely when exactly one
commit of the full history touches the path, and "modified" for every other
commit count, zero included. -/
theorem classification_new_iff_single_commit (repo : Repo) (fp : String) (t : NucleiTemplate) :
    ((assignStatus repo fp t).status = some "new" ↔
      (repo.iter_commits_paths fp).length = 1)
    ∧ ((assignStatus repo fp t).status = some "modified" ↔
      ¬ (repo.iter_commits_paths fp).length = 1) := by
  unfold assignStatus is_template_new
  by_cases h : (repo.iter_commits_paths fp).length = 1
  · rw [if_pos (by simpa using h)]
    constructor
    · simp [h]
    · constructor
      · intro he; exact absurd (Option.some.inj he) (by decide)
      · intro hn; exact absurd h hn
  · rw [if_neg (by simpa using h)]
    constructor
    · constructor
      · intro he; exact absurd (Option.some.inj he).symm (by decide)
      · intro h1; exact absurd h1 h
    · simp [h]

theorem classification_new_iff_single_commit_witness :
    (assignStatus repoOne "one.yaml" tmplA).status = some "new"
    ∧ (assignStatus repoOne "two.yaml" tmplA).status = some "modified" := by
  constructor
  · exact (classification_new_iff_single_commit repoOne "one.yaml" tmplA).1.mpr (by decide)
  · exact (classification_new_iff_single_commit repoOne "two.yaml" tmplA).2.mpr (by decide)


theorem categoryFromParts_not_mem (parts : List String) (h : "main" ∉ parts) :
    categoryFromParts parts = "Uncategorized" := by
  simp [categoryFromParts, h]

theorem categoryFromParts_cons (x : String) (parts : List String) (hx : x ≠ "main")
    (hm : "main" ∈ parts) : categoryFromParts (x :: parts) = categoryFromParts parts := by
  have hmem : "main" ∈ x :: parts := List.mem_cons_of_mem _ hm
  have hidx : (x :: parts).indexOf "main" = parts.indexOf "main" + 1 := by
    rw [List.indexOf_cons, show (x == "main") = false from beq_eq_false_iff_ne.mpr hx,
      cond_false]
  rw [categoryFromParts, categoryFromParts, if_pos hmem, if_pos hm]
  rw [hidx]
  simp only [List.length_cons]
  by_cases hb : parts.indexOf "main" + 1 < parts.length
  · rw [dif_pos (by omega : parts.indexOf "main" + 1 + 1 < parts.length + 1), dif_pos hb]
    exact List.getElem_cons_succ x parts (parts.indexOf "main" + 1) (by simp only [List.length_cons]; omega)
  · rw [dif_neg (by omega : ¬ (parts.indexOf "main" + 1 + 1 < parts.length + 1)), dif_neg hb]

theorem categoryFromParts_main_head (rest : List String) :
    categoryFromParts ("main" :: rest) =
      match rest with
      | [] => "Uncategorized"
      | c :: _ => c := by
  cases rest with
  | nil => simp [categoryFromParts]
  | cons c cs => simp [categoryFromParts, List.indexOf_cons_self]

theorem categoryFromParts_first_main (pre rest : List String) :
    "main" ∉ pre →
      categoryFromParts (pre ++ "main" :: rest) =
        match rest with
        | [] => "Uncategorized"
        | c :: _ => c := by
  induction pre with
  | nil =>
    intro _
    simpa using categoryFromParts_main_head rest
  | cons x xs ih =>
    intro hpre
    have hx : x ≠ "main" := fun e => hpre (e ▸ List.mem_cons_self x xs)
    have hxs : "main" ∉ xs := fun m => hpre (List.mem_cons_of_mem _ m)
    rw [List.cons_append, categoryFromParts_cons x _ hx (by simp), ih hxs]

/-- C7: the extracted category is the URL segment right after the first
segment equal to "main"; with no URL, no "main" segment, or no segment after
it, the category is "Uncategorized". -/
theorem category_extraction_spec (u : String) :
    extract_category_from_url none = "Uncategorized"
    ∧ ("main" ∉ pySplitSlash u → extract_category_from_url (some u) = "Uncategorized")
    ∧ (∀ pre c post, pySplitSlash u = pre ++ "main" :: c :: post → "main" ∉ pre →
        extract_category_from_url (some u) = c)
    ∧ (∀ pre, pySplitSlash u = pre ++ ["main"] → "main" ∉ pre →
        extract_category_from_url (some u) = "Uncategorized") := by
  refine ⟨rfl, ?_, ?_, ?_⟩
  · intro h
    by_cases hu : u = ""
    · subst hu; rfl
    · rw [extract_category_from_url, if_pos hu]
      exact categoryFromParts_not_mem _ h
  · intro pre c post hsplit hpre
    have hmem : "main" ∈ pySplitSlash u := by
      rw [hsplit]
      exact List.mem_append_right pre (List.mem_cons_self _ _)
    have hu : u ≠ "" := by
      intro he
      rw [he, show pySplitSlash "" = [""] from rfl] at hmem
      exact absurd (List.mem_singleton.mp hmem) (by decide)
    rw [extract_category_from_url, if_pos hu, hsplit]
    exact categoryFromParts_first_main pre (c :: post) hpre
  · intro pre hsplit hpre
    have hmem : "main" ∈ pySplitSlash u := by
      rw [hsplit]
      exact List.mem_append_right pre (List.mem_singleton.mpr rfl)
    have hu : u ≠ "" := by
      intro he
      rw [he, show pySplitSlash "" = [""] from rfl] at hmem
      exact absurd (List.mem_singleton.mp hmem) (by decide)
    rw [extract_category_from_url, if_pos hu, hsplit]
    exact categoryFromParts_first_main pre [] hpre

theorem category_extraction_spec_witness :
    extract_category_from_url (some "a/main/http/x") = "http" := by
  exact (category_extraction_spec "a/main/http/x").2.2.1 ["a"] "http" ["x"] rfl (by decide)

/-- C4 counterexample: a rule file whose document has no `id` field gets the
identifier "Unknown", not the base name "foo" of the file
`cves/foo.yaml`. -/
theorem identifier_fallback_is_unknown_not_basename :
    (mkNucleiTemplate fsNoId "cves/foo.yaml" none none none).map (fun t => t.name) =
      Except.ok "Unknown"
    ∧ "Unknown" ≠ "foo" := by
  constructor
  · rfl
  · decide

/-- C4 (amended): the extracted identifier is the embedded `id` field when
the parsed document has one, and otherwise the fixed string "Unknown" (not
the file's base name). -/
theorem identifier_embedded_id_or_unknown (fs : Fs) (fp : String) (url : Option String)
    (cd : Option Datetime) (st : Option String) (doc : YamlDoc)
    (h : fs fp = some (FileContent.parsable doc)) :
    (mkNucleiTemplate fs fp url cd st).map (fun t => t.name) =
      Except.ok (doc.id.getD "Unknown") := by
  simp [mkNucleiTemplate, load_attributes, h, Except.map]

theorem identifier_embedded_id_or_unknown_witness :
    (mkNucleiTemplate fsWithId "w/http/a.yaml" none none none).map (fun t => t.name) =
      Except.ok "ida" := by
  have h := identifier_embedded_id_or_unknown fsWithId "w/http/a.yaml" none none none
    { id := some "ida", severity := some "low", description := some "da" } rfl
  exact h

/-- C9: building a record reads the rule file from the mirror at construction
time: a missing file raises `FileNotFoundError`, a constructed record implies
a parsable file currently exists at the path, and a changed path whose file
is absent from the mirror makes that file's processing in the scan fail
rather than produce a record. -/
theorem record_requires_file_on_disk (fs : Fs) (fp : String) (url : Option String)
    (cd : Option Datetime) (st : Option String) :
    (fs fp = none → mkNucleiTemplate fs fp url cd st = Except.error "FileNotFoundError")
    ∧ (∀ t, mkNucleiTemplate fs fp url cd st = Except.ok t →
        ∃ doc, fs fp = some (FileContent.parsable doc))
    ∧ (∀ (repo : Repo) (cd2 : Datetime) (m : PyDict) (rest : List String),
        pyEndsWith fp ".yaml" = true →
        fs (os_path_join repo.working_dir fp) = none →
        processCommitFiles fs repo cd2 m (fp :: rest) = m) := by
  refine ⟨?_, ?_, ?_⟩
  · intro h
    simp [mkNucleiTemplate, load_attributes, h]
  · intro t ht
    rcases hf : fs fp with _ | fc
    · simp [mkNucleiTemplate, load_attributes, hf] at ht
    · cases fc with
      | parsable doc => exact ⟨doc, rfl⟩
      | unparsable => simp [mkNucleiTemplate, load_attributes, hf] at ht
  · intro repo cd2 m rest hy hnone
    refine processCommitFiles_cons_mk_err fs repo cd2 m fp rest "FileNotFoundError" hy ?_
    simp [mkNucleiTemplate, load_attributes, hnone]

theorem record_requires_file_on_disk_witness :
    mkNucleiTemplate fsNoId "missing.yaml" none none none = Except.error "FileNotFoundError"
    ∧ processCommitFiles fsNoId repoW { time := 1, tz := some 0 } [] ["missing.yaml"] = [] := by
  constructor
  · exact (record_requires_file_on_disk fsNoId "missing.yaml" none none none).1 rfl
  · exact (record_requires_file_on_disk fsNoId "missing.yaml" none none none).2.2
      repoW { time := 1, tz := some 0 } [] [] (by decide) rfl

/-- C6 (amended): the `try` of `find_templates_in_commits` wraps the whole
per-commit file loop, so a failure while processing one file, at any position
in its commit's file list, skips that file and all remaining files of the
same commit, while the registry keeps the effect of the commit's files
already processed before the failure, and commits after the failing one are
still processed from that registry: processing the commit equals processing
only the prefix before the failing file, whatever that prefix does. -/
theorem per_file_failure_skips_rest_of_commit (fs : Fs) (repo : Repo) (dt : Datetime)
    (fpb : String) (rest : List String) (e : String)
    (hy : pyEndsWith fpb ".yaml" = true)
    (herr : mkNucleiTemplate fs (os_path_join repo.working_dir fpb) (some (raw_url_for fpb))
        (some (astimezone_utc dt)) none = Except.error e) :
    ∀ (pre : List String) (m : PyDict) (cs : List Commit),
      processCommitFiles fs repo (astimezone_utc dt) m (pre ++ fpb :: rest) =
        processCommitFiles fs repo (astimezone_utc dt) m pre
      ∧ scanFold fs repo m ({ committed_datetime := dt, files := pre ++ fpb :: rest } :: cs) =
        scanFold fs repo (processCommitFiles fs repo (astimezone_utc dt) m pre) cs
      ∧ find_templates_in_commits fs repo
          ({ committed_datetime := dt, files := pre ++ fpb :: rest } :: cs) =
        dictValues (scanFold fs repo
          (processCommitFiles fs repo (astimezone_utc dt) [] pre) cs) := by
  have key : ∀ (pre : List String) (m0 : PyDict),
      processCommitFiles fs repo (astimezone_utc dt) m0 (pre ++ fpb :: rest) =
        processCommitFiles fs repo (astimezone_utc dt) m0 pre := by
    intro pre
    induction pre with
    | nil =>
      intro m0
      exact processCommitFiles_cons_mk_err fs repo _ m0 fpb rest e hy herr
    | cons fp pre2 ih =>
      intro m0
      rw [List.cons_append]
      by_cases hyp : pyEndsWith fp ".yaml" = true
      · rcases hmk : mkNucleiTemplate fs (os_path_join repo.working_dir fp)
            (some (raw_url_for fp)) (some (astimezone_utc dt)) none with e2 | t
        · rw [processCommitFiles_cons_mk_err fs repo _ m0 fp _ e2 hyp hmk,
            processCommitFiles_cons_mk_err fs repo _ m0 fp pre2 e2 hyp hmk]
        · rcases hmg : mergeTemplate repo fp (astimezone_utc dt) t m0 with e2 | m2
          · rw [processCommitFiles_cons_merge_err fs repo _ m0 fp _ t e2 hyp hmk hmg,
              processCommitFiles_cons_merge_err fs repo _ m0 fp pre2 t e2 hyp hmk hmg]
          · rw [processCommitFiles_cons_merge_ok fs repo _ m0 m2 fp _ t hyp hmk hmg,
              processCommitFiles_cons_merge_ok fs repo _ m0 m2 fp pre2 t hyp hmk hmg,
              ih m2]
      · rw [processCommitFiles_cons_not_yaml fs repo _ m0 fp _ hyp,
          processCommitFiles_cons_not_yaml fs repo _ m0 fp pre2 hyp, ih m0]
  intro pre m cs
  have hscan : ∀ m0 : PyDict,
      scanFold fs repo m0 ({ committed_datetime := dt, files := pre ++ fpb :: rest } :: cs) =
        scanFold fs repo (processCommitFiles fs repo (astimezone_utc dt) m0 pre) cs := by
    intro m0
    simp only [scanFold, List.foldl_cons]
    rw [key pre m0]
  exact ⟨key pre m, hscan m, by rw [find_templates_in_commits, hscan []]⟩

/-- C6 counterexample: in a commit touching `a.yaml` (unparseable) and then
`b.yaml` (parseable), the failure on `a.yaml` also skips `b.yaml`: the scan
returns no record at all even though `b.yaml` alone would produce one. -/
theorem failure_skips_sibling_file :
    find_templates_in_commits fsBad repoW
        [{ committed_datetime := { time := 1, tz := some 0 }, files := ["a.yaml", "b.yaml"] }] = []
    ∧ (mkNucleiTemplate fsBad "w/b.yaml" (some (raw_url_for "b.yaml"))
        (some { time := 1, tz := some 0 }) none).map (fun t => t.name) = Except.ok "idb" := by
  constructor
  · rfl
  · rfl

theorem per_file_failure_skips_rest_of_commit_witness :
    find_templates_in_commits fsBad repoW
        [{ committed_datetime := { time := 1, tz := some 0 },
           files := ["b.yaml", "a.yaml", "c.yaml"] },
         { committed_datetime := { time := 2, tz := some 0 }, files := ["b.yaml"] }] =
      dictValues (scanFold fsBad repoW
        (processCommitFiles fsBad repoW (astimezone_utc { time := 1, tz := some 0 }) [] ["b.yaml"])
        [{ committed_datetime := { time := 2, tz := some 0 }, files := ["b.yaml"] }])
    ∧ processCommitFiles fsBad repoW (astimezone_utc { time := 1, tz := some 0 }) [] ["b.yaml"] ≠ [] := by
  constructor
  · exact (per_file_failure_skips_rest_of_commit fsBad repoW { time := 1, tz := some 0 }
      "a.yaml" ["c.yaml"] "YAMLError" (by decide) rfl ["b.yaml"] []
      [{ committed_datetime := { time := 2, tz := some 0 }, files := ["b.yaml"] }]).2.2
  · decide

/-- C5 (amended): saving an empty registry is not a no-op on the store: the
store is opened in write mode unconditionally, so its previous contents are
replaced by empty content. -/
theorem save_empty_registry_truncates (old : String) : runSave old [] = "" := rfl

/-- C5 counterexample: a populated store is overwritten with nothing when an
empty registry is saved. -/
theorem save_empty_overwrites_populated_store :
    runSave (save_templates_to_json [tmplA]) [] ≠ save_templates_to_json [tmplA] := by
  decide


/-- C8: the deduplication map is keyed solely by the parsed embedded id: two
rule files with different paths whose documents both lack an `id` key get the
key "Unknown" and collapse into one registry entry; only the record from the
strictly latest commit survives, in either commit order. -/
theorem dedup_collapses_missing_ids (fs : Fs) (repo : Repo) (fp1 fp2 : String)
    (dt1 dt2 : Datetime) (doc1 doc2 : YamlDoc)
    (_hne : fp1 ≠ fp2)
    (hy1 : pyEndsWith fp1 ".yaml" = true) (hy2 : pyEndsWith fp2 ".yaml" = true)
    (hfs1 : fs (os_path_join repo.working_dir fp1) = some (FileContent.parsable doc1))
    (hfs2 : fs (os_path_join repo.working_dir fp2) = some (FileContent.parsable doc2))
    (hid1 : doc1.id = none) (hid2 : doc2.id = none)
    (hlt : dt1.time < dt2.time) :
    find_templates_in_commits fs repo
        [{ committed_datetime := dt1, files := [fp1] },
         { committed_datetime := dt2, files := [fp2] }] =
      [assignStatus repo fp2
        { commit_date := some (astimezone_utc dt2),
          filepath := os_path_join repo.working_dir fp2,
          raw_url := some (raw_url_for fp2), name := "Unknown",
          category := extract_category_from_url (some (raw_url_for fp2)),
          severity := doc2.severity.getD "Unknown",
          description := doc2.description.getD "No description available.",
          status := none }]
    ∧ find_templates_in_commits fs repo
        [{ committed_datetime := dt2, files := [fp2] },
         { committed_datetime := dt1, files := [fp1] }] =
      [assignStatus repo fp2
        { commit_date := some (astimezone_utc dt2),
          filepath := os_path_join repo.working_dir fp2,
          raw_url := some (raw_url_for fp2), name := "Unknown",
          category := extract_category_from_url (some (raw_url_for fp2)),
          severity := doc2.severity.getD "Unknown",
          description := doc2.description.getD "No description available.",
          status := none }] := by
  have hmk1 : mkNucleiTemplate fs (os_path_join repo.working_dir fp1)
      (some (raw_url_for fp1)) (some (astimezone_utc dt1)) none = Except.ok
        { commit_date := some (astimezone_utc dt1),
          filepath := os_path_join repo.working_dir fp1,
          raw_url := some (raw_url_for fp1), name := "Unknown",
          category := extract_category_from_url (some (raw_url_for fp1)),
          severity := doc1.severity.getD "Unknown",
          description := doc1.description.getD "No description available.",
          status := none } := by
    simp [mkNucleiTemplate, load_attributes, hfs1, hid1]
  have hmk2 : mkNucleiTemplate fs (os_path_join repo.working_dir fp2)
      (some (raw_url_for fp2)) (some (astimezone_utc dt2)) none = Except.ok
        { commit_date := some (astimezone_utc dt2),
          filepath := os_path_join repo.working_dir fp2,
          raw_url := some (raw_url_for fp2), name := "Unknown",
          category := extract_category_from_url (some (raw_url_for fp2)),
          severity := doc2.severity.getD "Unknown",
          description := doc2.description.getD "No description available.",
          status := none } := by
    simp [mkNucleiTemplate, load_attributes, hfs2, hid2]
  have hgt21 : pyDtGt (astimezone_utc dt2) (astimezone_utc dt1) = Except.ok true := by
    simp only [pyDtGt, astimezone_utc]
    rw [decide_eq_true hlt]
  have hgt12 : pyDtGt (astimezone_utc dt1) (astimezone_utc dt2) = Except.ok false := by
    simp only [pyDtGt, astimezone_utc]
    rw [decide_eq_false (not_lt.mpr (le_of_lt hlt))]
  have pnil : ∀ (cd : Datetime) (m : PyDict), processCommitFiles fs repo cd m [] = m :=
    fun _ _ => rfl
  constructor
  · simp only [find_templates_in_commits, scanFold, List.foldl_cons, List.foldl_nil]
    have hmg1 : mergeTemplate repo fp1 (astimezone_utc dt1)
        { commit_date := some (astimezone_utc dt1),
          filepath := os_path_join repo.working_dir fp1,
          raw_url := some (raw_url_for fp1), name := "Unknown",
          category := extract_category_from_url (some (raw_url_for fp1)),
          severity := doc1.severity.getD "Unknown",
          description := doc1.description.getD "No description available.",
          status := none } [] = Except.ok
        [("Unknown", assignStatus repo fp1
          { commit_date := some (astimezone_utc dt1),
            filepath := os_path_join repo.working_dir fp1,
            raw_url := some (raw_url_for fp1), name := "Unknown",
            category := extract_category_from_url (some (raw_url_for fp1)),
            severity := doc1.severity.getD "Unknown",
            description := doc1.description.getD "No description available.",
            status := none })] :=
      mergeTemplate_not_mem repo fp1 (astimezone_utc dt1) _ [] rfl
    rw [processCommitFiles_cons_merge_ok fs repo (astimezone_utc dt1) [] _ fp1 [] _ hy1 hmk1 hmg1]
    rw [pnil]
    have hmg2 : mergeTemplate repo fp2 (astimezone_utc dt2)
        { commit_date := some (astimezone_utc dt2),
          filepath := os_path_join repo.working_dir fp2,
          raw_url := some (raw_url_for fp2), name := "Unknown",
          category := extract_category_from_url (some (raw_url_for fp2)),
          severity := doc2.severity.getD "Unknown",
          description := doc2.description.getD "No description available.",
          status := none }
        [("Unknown", assignStatus repo fp1
          { commit_date := some (astimezone_utc dt1),
            filepath := os_path_join repo.working_dir fp1,
            raw_url := some (raw_url_for fp1), name := "Unknown",
            category := extract_category_from_url (some (raw_url_for fp1)),
            severity := doc1.severity.getD "Unknown",
            description := doc1.description.getD "No description available.",
            status := none })] = Except.ok
        [("Unknown", assignStatus repo fp2
          { commit_date := some (astimezone_utc dt2),
            filepath := os_path_join repo.working_dir fp2,
            raw_url := some (raw_url_for fp2), name := "Unknown",
            category := extract_category_from_url (some (raw_url_for fp2)),
            severity := doc2.severity.getD "Unknown",
            description := doc2.description.getD "No description available.",
            status := none })] := by
      simp [mergeTemplate, dictGet, dictSet, assignStatus_commit_date, hgt21]
    rw [processCommitFiles_cons_merge_ok fs repo (astimezone_utc dt2) _ _ fp2 [] _ hy2 hmk2 hmg2]
    rw [pnil]
    rfl
  · simp only [find_templates_in_commits, scanFold, List.foldl_cons, List.foldl_nil]
    have hmg2b : mergeTemplate repo fp2 (astimezone_utc dt2)
        { commit_date := some (astimezone_utc dt2),
          filepath := os_path_join repo.working_dir fp2,
          raw_url := some (raw_url_for fp2), name := "Unknown",
          category := extract_category_from_url (some (raw_url_for fp2)),
          severity := doc2.severity.getD "Unknown",
          description := doc2.description.getD "No description available.",
          status := none } [] = Except.ok
        [("Unknown", assignStatus repo fp2
          { commit_date := some (astimezone_utc dt2),
            filepath := os_path_join repo.working_dir fp2,
            raw_url := some (raw_url_for fp2), name := "Unknown",
            category := extract_category_from_url (some (raw_url_for fp2)),
            severity := doc2.severity.getD "Unknown",
            description := doc2.description.getD "No description available.",
            status := none })] :=
      mergeTemplate_not_mem repo fp2 (astimezone_utc dt2) _ [] rfl
    rw [processCommitFiles_cons_merge_ok fs repo (astimezone_utc dt2) [] _ fp2 [] _ hy2 hmk2 hmg2b]
    rw [pnil]
    have hmg1b : mergeTemplate repo fp1 (astimezone_utc dt1)
        { commit_date := some (astimezone_utc dt1),
          filepath := os_path_join repo.working_dir fp1,
          raw_url := some (raw_url_for fp1), name := "Unknown",
          category := extract_category_from_url (some (raw_url_for fp1)),
          severity := doc1.severity.getD "Unknown",
          description := doc1.description.getD "No description available.",
          status := none }
        [("Unknown", assignStatus repo fp2
          { commit_date := some (astimezone_utc dt2),
            filepath := os_path_join repo.working_dir fp2,
            raw_url := some (raw_url_for fp2), name := "Unknown",
            category := extract_category_from_url (some (raw_url_for fp2)),
            severity := doc2.severity.getD "Unknown",
            description := doc2.description.getD "No description available.",
            status := none })] = Except.ok
        [("Unknown", assignStatus repo fp2
          { commit_date := some (astimezone_utc dt2),
            filepath := os_path_join repo.working_dir fp2,
            raw_url := some (raw_url_for fp2), name := "Unknown",
            category := extract_category_from_url (some (raw_url_for fp2)),
            severity := doc2.severity.getD "Unknown",
            description := doc2.description.getD "No description available.",
            status := none })] := by
      simp [mergeTemplate, dictGet, dictSet, assignStatus_commit_date, hgt12]
    rw [processCommitFiles_cons_merge_ok fs repo (astimezone_utc dt1) _ _ fp1 [] _ hy1 hmk1 hmg1b]
    rw [pnil]
    rfl


theorem dedup_collapses_missing_ids_witness :
    find_templates_in_commits fsDup repoW
        [{ committed_datetime := { time := 1, tz := some 0 }, files := ["x/a.yaml"] },
         { committed_datetime := { time := 2, tz := some 0 }, files := ["y/b.yaml"] }] =
      [assignStatus repoW "y/b.yaml"
        { commit_date := some (astimezone_utc { time := 2, tz := some 0 }),
          filepath := os_path_join repoW.working_dir "y/b.yaml",
          raw_url := some (raw_url_for "y/b.yaml"), name := "Unknown",
          category := extract_category_from_url (some (raw_url_for "y/b.yaml")),
          severity := (some "s2").getD "Unknown",
          description := (some "d2").getD "No description available.",
          status := none }] := by
  exact (dedup_collapses_missing_ids fsDup repoW "x/a.yaml" "y/b.yaml"
    { time := 1, tz := some 0 } { time := 2, tz := some 0 }
    { id := none, severity := some "s1", description := some "d1" }
    { id := none, severity := some "s2", description := some "d2" }
    (by decide) (by decide) (by decide) rfl rfl rfl rfl (by decide)).1

theorem strData_append (a b : String) : (a ++ b).data = a.data ++ b.data := rfl

theorem splitOnChar_ne_nil (sep : Char) (l : List Char) : splitOnChar sep l ≠ [] := by
  cases l with
  | nil => simp [splitOnChar]
  | cons c cs =>
    rw [splitOnChar]
    by_cases h : c = sep
    · rw [if_pos h]; simp
    · rw [if_neg h]
      rcases hs : splitOnChar sep cs with _ | ⟨l2, ls⟩
      · simp [hs]
      · simp [hs]

theorem splitOnChar_cons_self (sep : Char) (cs : List Char) :
    splitOnChar sep (sep :: cs) = [] :: splitOnChar sep cs := by
  rw [splitOnChar, if_pos rfl]

theorem splitOnChar_cons_ne_cons (sep c : Char) (h : c ≠ sep) (cs l : List Char)
    (ls : List (List Char)) (hcs : splitOnChar sep cs = l :: ls) :
    splitOnChar sep (c :: cs) = (c :: l) :: ls := by
  rw [splitOnChar, if_neg h]
  simp only [hcs]

/-- C3: persistence does not round-trip: for every registry with at least one
record, `save` writes each record as a multi-line indented JSON rendering,
while `load` parses each physical line on its own, so loading fails on the
very first line (a lone opening brace) with a JSON decode error instead of
reproducing the registry. -/
theorem save_then_load_always_fails (fs : Fs) (t : NucleiTemplate) (ts : List NucleiTemplate) :
    load_templates_from_json fs (save_templates_to_json (t :: ts)) =
      Except.error "json.decoder.JSONDecodeError: Expecting value" := by
  have e1 : ("\x7b\n").data = lbraceChar :: ['\n'] := by decide
  have e2 : ("\n").data = ['\n'] := by decide
  have hd : (save_templates_to_json (t :: ts)).data =
      lbraceChar :: '\n' ::
        ((strInterc ",\n" ((obj_dict t).map
            (fun kv => "    \"" ++ kv.1 ++ "\": " ++ jvalRender kv.2)) ++ "\n\x7d").data
          ++ '\n' :: (strConcat (ts.map (fun x => to_json x ++ "\n"))).data) := by
    simp only [save_templates_to_json, List.map_cons, strConcat, to_json, obj_dict,
      json_dumps_indent4, strData_append, e1, e2, List.cons_append, List.nil_append,
      List.append_assoc, lbraceChar]
  have hlines : ∃ more, pyLines (save_templates_to_json (t :: ts)) =
      String.mk [lbraceChar] :: more := by
    obtain ⟨p, P, hP⟩ : ∃ p P, splitOnChar '\n'
        ((strInterc ",\n" ((obj_dict t).map
            (fun kv => "    \"" ++ kv.1 ++ "\": " ++ jvalRender kv.2)) ++ "\n\x7d").data
          ++ '\n' :: (strConcat (ts.map (fun x => to_json x ++ "\n"))).data) = p :: P := by
      rcases h : splitOnChar '\n' _ with _ | ⟨p, P⟩
      · exact absurd h (splitOnChar_ne_nil '\n' _)
      · exact ⟨p, P, rfl⟩
    have hsplit : splitOnChar '\n' ((save_templates_to_json (t :: ts)).data) =
        [lbraceChar] :: p :: P := by
      rw [hd]
      exact splitOnChar_cons_ne_cons '\n' lbraceChar (by decide) _ [] (p :: P)
        (by rw [splitOnChar_cons_self, hP])
    simp only [pyLines]
    rw [hsplit]
    by_cases hlast : (p :: P).getLast? = some []
    · rw [List.getLast?_cons_cons, if_pos hlast]
      exact ⟨((p :: P).dropLast).map String.mk, rfl⟩
    · rw [List.getLast?_cons_cons, if_neg hlast]
      exact ⟨(p :: P).map String.mk, rfl⟩
  obtain ⟨more, hmore⟩ := hlines
  rw [load_templates_from_json, hmore]
  have hstep : from_json fs (pyStrip (String.mk [lbraceChar])) =
      Except.error "json.decoder.JSONDecodeError: Expecting value" := rfl
  simp only [loadLines, hstep]

end NucleiMonitoring
